import Mathlib

/-!
Verification of the `collapsible_if` lint of `rust-clippy-pattern`
(src/clippy_lints/src/collapsible_if.rs).

The lint inspects expressions of the host AST, matches two structural
patterns (an `if` without `else` whose body is a single nested else-less
`if`, and an `if`/`if let` whose `else` branch is a block holding a single
nested `if`/`if let`), applies hygiene and comment guards, and synthesizes
textual replacement suggestions.

The AST node shapes, the spans with macro-expansion context, and the host
accessors (source snippets, macro queries, the Sugg printing helper) follow
the specification's data model; the two pattern declarations, the guard
logic of `check_expr` and `block_starts_with_comment` are translated from
the source file.
-/

/-- A source span: an identifier for the source range, the macro-expansion
context id, and whether the span originates from a macro expansion. -/
structure Span where
  id : Nat
  ctxt : Nat
  fromExpansion : Bool
deriving DecidableEq

/-- Applicability confidence of a suggestion. -/
inductive Applicability where
  | MachineApplicable
  | MaybeIncorrect
  | Unspecified
deriving DecidableEq

mutual

/-- Expressions of the host AST relevant to the lint: `If(cond, then, else?)`,
`IfLet(pat, scrutinee, then, else?)`, a block expression, and all other
expression kinds (carrying whether their precedence is lower than `&&`). -/
inductive Expr where
  | If : Span → Expr → Block → Option Expr → Expr
  | IfLet : Span → String → Expr → Block → Option Expr → Expr
  | Block_ : Span → Block → Expr
  | Other : Span → Bool → Expr

/-- A block: a span and a list of statements. -/
inductive Block where
  | mk : Span → List Stmt → Block

/-- Statements: expression statements, semicolon-terminated statements, and
all other statement kinds. -/
inductive Stmt where
  | Expr : Expr → Stmt
  | Semi : Expr → Stmt
  | Other : Stmt

end

def Expr.span : Expr → Span
  | .If sp _ _ _ => sp
  | .IfLet sp _ _ _ _ => sp
  | .Block_ sp _ => sp
  | .Other sp _ => sp

def Block.span : Block → Span
  | .mk sp _ => sp

def Block.stmts : Block → List Stmt
  | .mk _ ss => ss

/-- Modelled from the spec: the host macro-context query answering whether a
span originates from macro expansion. -/
def in_macro (span : Span) : Bool :=
  span.fromExpansion

/-- Modelled from the spec: the host context, carrying the source-snippet
accessor (`snippet span` recovers the verbatim source substring of a span
when possible). -/
structure EarlyContext where
  snippet : Span → Option String

/-- Modelled from the spec: the snippet accessor with a default fallback —
the verbatim source substring of the span when the host can recover it, the
caller-supplied default text otherwise. -/
def snippet_block (cx : EarlyContext) (span : Span) (default : String) : String :=
  (cx.snippet span).getD default

/-- Modelled from the spec: snippet accessor that degrades the applicability
instead of failing when exact text recovery is impossible. -/
def snippet_block_with_applicability (cx : EarlyContext) (span : Span) (default : String)
    (applicability : Applicability) : String × Applicability :=
  match cx.snippet span with
  | some text => (text, applicability)
  | none => (default, Applicability.MaybeIncorrect)

/-- Modelled from the spec: the expression-printing helper `Sugg` records the
snippet text of a captured condition together with whether its own precedence
is lower than that of logical AND. -/
structure Sugg where
  text : String
  lowerPrecThanAnd : Bool

/-- Whether an expression's precedence is lower than that of logical AND. -/
def Expr.precLowerThanAnd : Expr → Bool
  | .Other _ lowPrec => lowPrec
  | _ => false

/-- Modelled from the spec: `Sugg::ast` builds a suggestion fragment for a
captured condition from its source snippet. -/
def Sugg.ast (cx : EarlyContext) (e : Expr) (default : String) : Sugg :=
  ⟨snippet_block cx e.span default, e.precLowerThanAnd⟩

/-- Modelled from the spec: conjoin two condition fragments with logical AND,
parenthesizing a side exactly when its own precedence is lower than AND. -/
def Sugg.and (lhs rhs : Sugg) : String :=
  (if lhs.lowerPrecThanAnd then "(" ++ lhs.text ++ ")" else lhs.text) ++ " && " ++
  (if rhs.lowerPrecThanAnd then "(" ++ rhs.text ++ ")" else rhs.text)

/-- The captures of the pattern `pat_if_without_else`. -/
structure PatIfWithoutElseResult where
  check : Expr
  check_inner : Expr
  content : Block
  then_ : Block
  inner : Expr

/-- The pattern `pat_if_without_else` from the source: an `If` with no else
whose then-block holds exactly one statement, an expression statement or a
semicolon-terminated statement, that is itself an `If` with no else. The
`Expr` statement alternative is listed before the `Semi` alternative.
Captures: check, check_inner, content, then, inner. -/
def pat_if_without_else : Expr → Option PatIfWithoutElseResult
  | .If _ check (.mk bsp [.Expr (.If isp check_inner content none)]) none =>
      some ⟨check, check_inner, content,
        .mk bsp [.Expr (.If isp check_inner content none)],
        .If isp check_inner content none⟩
  | .If _ check (.mk bsp [.Semi (.If isp check_inner content none)]) none =>
      some ⟨check, check_inner, content,
        .mk bsp [.Semi (.If isp check_inner content none)],
        .If isp check_inner content none⟩
  | _ => none

/-- The captures of the pattern `pat_if_else`. -/
structure PatIfElseResult where
  block : Expr
  block_inner : Block
  else_ : Expr

/-- The inner alternation of `pat_if_else`: `If(_, _, _?) | IfLet(_, _?)`,
a nested conditional with any else branch, `If` listed first. -/
def matchNestedCond : Expr → Option Expr
  | .If sp c t els => some (.If sp c t els)
  | .IfLet sp p s t els => some (.IfLet sp p s t els)
  | _ => none

/-- The else-branch part shared by both alternatives of `pat_if_else`:
a block expression whose block holds exactly one statement (expression
statement listed before semicolon statement) that is a nested conditional. -/
def matchElseTail (els : Expr) : Option PatIfElseResult :=
  match els with
  | .Block_ bsp (.mk isp [.Expr inner]) =>
      (matchNestedCond inner).map fun else_ =>
        ⟨.Block_ bsp (.mk isp [.Expr inner]), .mk isp [.Expr inner], else_⟩
  | .Block_ bsp (.mk isp [.Semi inner]) =>
      (matchNestedCond inner).map fun else_ =>
        ⟨.Block_ bsp (.mk isp [.Semi inner]), .mk isp [.Semi inner], else_⟩
  | _ => none

/-- First top-level alternative of `pat_if_else`: an `If` whose else branch
is present and matches the else-tail. -/
def pat_if_else_alt1 : Expr → Option PatIfElseResult
  | .If _ _ _ (some els) => matchElseTail els
  | _ => none

/-- Second top-level alternative of `pat_if_else`: an `IfLet` whose else
branch is present and matches the else-tail. -/
def pat_if_else_alt2 : Expr → Option PatIfElseResult
  | .IfLet _ _ _ _ (some els) => matchElseTail els
  | _ => none

/-- The pattern `pat_if_else` from the source: ordered alternation of the
`If`-else alternative and the `IfLet`-else alternative, the first listed
alternative tried first, the second consulted only if the first fails.
Captures: block, block_inner, else_. -/
def pat_if_else (e : Expr) : Option PatIfElseResult :=
  match pat_if_else_alt1 e with
  | some r => some r
  | none => pat_if_else_alt2 e

/-- Rust's `str::starts_with`, over character lists. -/
def starts_with : List Char → List Char → Bool
  | _, [] => true
  | [], _ :: _ => false
  | a :: as_, b :: bs => a == b && starts_with as_ bs

/-- A character stripped by the comment guard: whitespace or an opening
brace. -/
def isWsOrBrace (c : Char) : Bool :=
  c.isWhitespace || c == '\x7b'

/-- Translated from the source: trim all opening braces and whitespace from
the block's source text, then check whether what remains starts with a line
or block comment marker. -/
def block_starts_with_comment (cx : EarlyContext) (expr : Block) : Bool :=
  let trimmed_block_text := (snippet_block cx expr.span "..").data.dropWhile isWsOrBrace
  starts_with trimmed_block_text "//".data || starts_with trimmed_block_text "/*".data

/-- A synthesized suggestion: the span to replace, the lint message, the help
label, the replacement text, and the applicability. -/
structure Suggestion where
  span : Span
  msg : String
  help : String
  replacement : String
  applicability : Applicability
deriving DecidableEq

/-- Translated from the source: `check_expr` of the `CollapsibleIf` lint
pass. Returns every diagnostic emitted for the expression. -/
def check_expr (cx : EarlyContext) (expr : Expr) : List Suggestion :=
  if in_macro expr.span then [] else
  (match pat_if_without_else expr with
   | some result =>
     if !block_starts_with_comment cx result.then_ &&
        (expr.span.ctxt == result.inner.span.ctxt) then
       [ { span := expr.span
           msg := "this if statement can be collapsed"
           help := "try"
           replacement := "if " ++
             Sugg.and (Sugg.ast cx result.check "..") (Sugg.ast cx result.check_inner "..") ++
             " " ++ snippet_block cx result.content.span ".."
           applicability := Applicability.MachineApplicable } ]
     else []
   | none => []) ++
  (match pat_if_else expr with
   | some result =>
     if !block_starts_with_comment cx result.block_inner && ! in_macro result.else_.span then
       let p := snippet_block_with_applicability cx result.else_.span ".."
         Applicability.MachineApplicable
       [ { span := result.block.span
           msg := "this `else \x7b if .. \x7d` block can be collapsed"
           help := "try"
           replacement := p.1
           applicability := p.2 } ]
     else []
   | none => [])

/-- Example condition `x`. -/
def exCondX : Expr := .Other ⟨1, 0, false⟩ false

/-- Example condition `y`. -/
def exCondY : Expr := .Other ⟨2, 0, false⟩ false

/-- Example inner body block of `if y`. -/
def exContent : Block := .mk ⟨3, 0, false⟩ [Stmt.Semi (.Other ⟨7, 0, false⟩ false)]

/-- Example nested `if y ...` expression. -/
def exInner : Expr := .If ⟨4, 0, false⟩ exCondY exContent none

/-- Example then-block of the outer if. -/
def exThen : Block := .mk ⟨5, 0, false⟩ [Stmt.Expr exInner]

/-- Example expression matching pattern 1. -/
def exE1 : Expr := .If ⟨6, 0, false⟩ exCondX exThen none

/-- The captures of pattern 1 on the first example. -/
def exR1 : PatIfWithoutElseResult := ⟨exCondX, exCondY, exContent, exThen, exInner⟩

/-- Example snippet accessor. -/
def exCx : EarlyContext := ⟨fun s =>
  if s.id = 1 then some "x" else
  if s.id = 2 then some "y" else
  if s.id = 3 then some "\x7b foo(); \x7d" else
  if s.id = 5 then some "\x7b if y \x7b foo(); \x7d \x7d" else
  if s.id = 15 then some "\x7b // note\nif y \x7b foo(); \x7d \x7d" else
  if s.id = 24 then some "\x7b if y \x7b bar(); \x7d \x7d" else
  if s.id = 20 then some "if y \x7b bar(); \x7d" else
  none⟩

/-- Example then-block whose source text begins with a line comment. -/
def exThen2 : Block := .mk ⟨15, 0, false⟩ [Stmt.Expr exInner]

/-- Example expression matching pattern 1 with a commented then-block. -/
def exE2 : Expr := .If ⟨16, 0, false⟩ exCondX exThen2 none

/-- The captures of pattern 1 on the commented example. -/
def exR2 : PatIfWithoutElseResult := ⟨exCondX, exCondY, exContent, exThen2, exInner⟩

/-- Example body block of the nested `if y` in the else branch. -/
def exNestedThen : Block := .mk ⟨21, 0, false⟩ [Stmt.Semi (.Other ⟨22, 0, false⟩ false)]

/-- Example nested conditional inside an else block. -/
def exNested : Expr := .If ⟨20, 0, false⟩ (.Other ⟨23, 0, false⟩ false) exNestedThen none

/-- Example inner block of the else branch. -/
def exBlockInner : Block := .mk ⟨24, 0, false⟩ [Stmt.Expr exNested]

/-- Example else-branch block expression. -/
def exElse : Expr := .Block_ ⟨25, 0, false⟩ exBlockInner

/-- Example expression matching pattern 2. -/
def exE3 : Expr := .If ⟨26, 0, false⟩ (.Other ⟨27, 0, false⟩ false)
  (.mk ⟨28, 0, false⟩ [Stmt.Other]) (some exElse)

/-- The captures of pattern 2 on the third example. -/
def exR3 : PatIfElseResult := ⟨exElse, exBlockInner, exNested⟩

/-- Example nested conditional carrying a macro context id different from the
outer expression's. -/
def exNested4 : Expr := .If ⟨30, 5, false⟩ (.Other ⟨31, 5, false⟩ false)
  (.mk ⟨32, 5, false⟩ []) none

/-- Example inner else block holding the foreign-context conditional. -/
def exBlockInner4 : Block := .mk ⟨33, 0, false⟩ [Stmt.Expr exNested4]

/-- Example else-branch block expression for the foreign-context example. -/
def exElse4 : Expr := .Block_ ⟨34, 0, false⟩ exBlockInner4

/-- Example pattern-2 expression whose nested conditional carries a different
context id than the outer if. -/
def exE4 : Expr := .If ⟨35, 0, false⟩ (.Other ⟨36, 0, false⟩ false)
  (.mk ⟨37, 0, false⟩ []) (some exElse4)

/-- The captures of pattern 2 on the foreign-context example. -/
def exR4 : PatIfElseResult := ⟨exElse4, exBlockInner4, exNested4⟩

/-- Example inner body block for the hygiene-rejection example. -/
def exContent5 : Block := .mk ⟨41, 7, false⟩ []

/-- Example nested if carrying macro context id 7. -/
def exInner5 : Expr := .If ⟨40, 7, false⟩ exCondY exContent5 none

/-- Example then-block holding the context-7 nested if. -/
def exThen5 : Block := .mk ⟨42, 0, false⟩ [Stmt.Expr exInner5]

/-- Example pattern-1 expression whose outer span (context 0) differs in
context id from its nested if (context 7). -/
def exE5 : Expr := .If ⟨43, 0, false⟩ exCondX exThen5 none

/-- The captures of pattern 1 on the hygiene-rejection example. -/
def exR5 : PatIfWithoutElseResult := ⟨exCondX, exCondY, exContent5, exThen5, exInner5⟩

/-- Example expression whose own span is macro-generated. -/
def exE6 : Expr := .Other ⟨50, 0, true⟩ false

/-- Example context whose snippet accessor never recovers any text. -/
def exCxNone : EarlyContext := ⟨fun _ => none⟩

theorem pat_if_without_else_shape {e : Expr} {r : PatIfWithoutElseResult}
    (h : pat_if_without_else e = some r) :
    ∃ sp bsp isp,
      r.inner = Expr.If isp r.check_inner r.content none ∧
      (r.then_ = Block.mk bsp [Stmt.Expr r.inner] ∨
       r.then_ = Block.mk bsp [Stmt.Semi r.inner]) ∧
      e = Expr.If sp r.check r.then_ none := by
  unfold pat_if_without_else at h
  split at h
  · injection h with h'
    subst h'
    exact ⟨_, _, _, rfl, Or.inl rfl, rfl⟩
  · injection h with h'
    subst h'
    exact ⟨_, _, _, rfl, Or.inr rfl, rfl⟩
  · exact absurd h (by simp)

theorem pat_if_else_shape {e : Expr} {r : PatIfElseResult}
    (h : pat_if_else e = some r) :
    (∃ sp c t els, e = Expr.If sp c t (some els) ∧ matchElseTail els = some r) ∨
    (∃ sp p s t els, e = Expr.IfLet sp p s t (some els) ∧ matchElseTail els = some r) := by
  unfold pat_if_else at h
  split at h
  · rename_i r' heq
    injection h with h'
    subst h'
    left
    unfold pat_if_else_alt1 at heq
    split at heq
    · exact ⟨_, _, _, _, rfl, heq⟩
    · exact absurd heq (by simp)
  · right
    unfold pat_if_else_alt2 at h
    split at h
    · exact ⟨_, _, _, _, _, rfl, h⟩
    · exact absurd h (by simp)

theorem pat1_if_some_else (sp : Span) (c : Expr) (t : Block) (els : Expr) :
    pat_if_without_else (Expr.If sp c t (some els)) = none := by
  cases hh : pat_if_without_else (Expr.If sp c t (some els)) with
  | none => rfl
  | some r =>
    obtain ⟨sp', bsp, isp, -, -, he⟩ := pat_if_without_else_shape hh
    injection he with h1 h2 h3 h4
    exact Option.noConfusion h4

theorem pat2_none_of_pat1_some {e : Expr} {r : PatIfWithoutElseResult}
    (h : pat_if_without_else e = some r) : pat_if_else e = none := by
  obtain ⟨sp, bsp, isp, -, -, he⟩ := pat_if_without_else_shape h
  subst he
  rfl

theorem pat1_none_of_pat2_some {e : Expr} {r : PatIfElseResult}
    (h : pat_if_else e = some r) : pat_if_without_else e = none := by
  rcases pat_if_else_shape h with ⟨sp, c, t, els, he, -⟩ | ⟨sp, p, s, t, els, he, -⟩
  · subst he
    exact pat1_if_some_else sp c t els
  · subst he
    rfl

/-- C5: for every candidate expression whose own span originates from macro
expansion, the analysis returns immediately and no diagnostic of any kind is
emitted for that expression. -/
theorem macro_expr_no_diagnostics (cx : EarlyContext) (e : Expr)
    (h : in_macro e.span = true) : check_expr cx e = [] := by
  simp [check_expr, h]

/-- C8: alternation in `pat_if_else` is ordered and deterministic — whenever
the first listed (If-else) alternative matches, `pat_if_else` returns exactly
its result and the later (IfLet-else) alternative is never consulted. -/
theorem alternation_first_wins (e : Expr) (r : PatIfElseResult)
    (h : pat_if_else_alt1 e = some r) : pat_if_else e = some r := by
  simp [pat_if_else, h]

/-- C1: for every expression matching pattern 1 (outside macro expansion)
that passes the comment guard and the hygiene guard, `check_expr` emits
exactly one suggestion, targeted at the outer if's span, whose replacement
text is `if ` followed by the AND-conjunction of the captured conditions
followed by the verbatim source text of the inner if's body block, with
applicability MachineApplicable. -/
theorem pattern1_suggestion_exact (cx : EarlyContext) (e : Expr)
    (r : PatIfWithoutElseResult)
    (hm : pat_if_without_else e = some r)
    (hmac : in_macro e.span = false)
    (hc : block_starts_with_comment cx r.then_ = false)
    (hh : e.span.ctxt = r.inner.span.ctxt) :
    check_expr cx e =
      [⟨e.span, "this if statement can be collapsed", "try",
        "if " ++ Sugg.and (Sugg.ast cx r.check "..") (Sugg.ast cx r.check_inner "..") ++
          " " ++ snippet_block cx r.content.span "..",
        Applicability.MachineApplicable⟩] := by
  have h2 := pat2_none_of_pat1_some hm
  simp [check_expr, hmac, hm, h2, hc, hh]

/-- C4: for every expression matching pattern 1 whose outer span and nested
inner if span carry different macro-expansion context ids, no suggestion and
no diagnostic are produced for that expression. -/
theorem hygiene_guard_blocks_all (cx : EarlyContext) (e : Expr)
    (r : PatIfWithoutElseResult)
    (hm : pat_if_without_else e = some r)
    (hctxt : e.span.ctxt ≠ r.inner.span.ctxt) :
    check_expr cx e = [] := by
  have h2 := pat2_none_of_pat1_some hm
  have hb : (e.span.ctxt == r.inner.span.ctxt) = false := by
    simp [hctxt]
  by_cases hmac : in_macro e.span = true
  · simp [check_expr, hmac]
  · simp only [Bool.not_eq_true] at hmac
    simp [check_expr, hmac, hm, h2, hb]

/-- C3: for every expression matching pattern 2 (outside macro expansion)
that passes the comment guard and whose nested conditional is not
macro-generated, `check_expr` emits exactly one suggestion replacing the span
of the entire outer else block; its replacement is the verbatim source text
of the nested conditional with applicability MachineApplicable when the
snippet accessor recovers the text exactly, and the default text with
degraded applicability otherwise, rather than no suggestion at all. -/
theorem pattern2_suggestion_snippet (cx : EarlyContext) (e : Expr)
    (r : PatIfElseResult)
    (hm : pat_if_else e = some r)
    (hmac : in_macro e.span = false)
    (hc : block_starts_with_comment cx r.block_inner = false)
    (hm2 : in_macro r.else_.span = false) :
    ∃ s : Suggestion, check_expr cx e = [s] ∧ s.span = r.block.span ∧
      ((∃ t, cx.snippet r.else_.span = some t ∧ s.replacement = t ∧
          s.applicability = Applicability.MachineApplicable) ∨
       (cx.snippet r.else_.span = none ∧ s.replacement = ".." ∧
          s.applicability = Applicability.MaybeIncorrect)) := by
  have h1 := pat1_none_of_pat2_some hm
  cases hsn : cx.snippet r.else_.span with
  | some t =>
    refine ⟨⟨r.block.span, "this `else \x7b if .. \x7d` block can be collapsed", "try", t,
      Applicability.MachineApplicable⟩, ?_, rfl, Or.inl ⟨t, rfl, rfl, rfl⟩⟩
    simp [check_expr, hmac, hm, h1, hc, hm2, snippet_block_with_applicability, hsn]
  | none =>
    refine ⟨⟨r.block.span, "this `else \x7b if .. \x7d` block can be collapsed", "try", "..",
      Applicability.MaybeIncorrect⟩, ?_, rfl, Or.inr ⟨rfl, rfl, rfl⟩⟩
    simp [check_expr, hmac, hm, h1, hc, hm2, snippet_block_with_applicability, hsn]

/-- C10: for pattern 2, the macro guard checks only that the captured nested
conditional's span is not macro-generated — if it is, no diagnostic is
emitted; if it is not (and the comment guard passes), a suggestion is emitted
with no requirement that the outer expression's span and the nested
conditional's span share a context id. -/
theorem pattern2_macro_guard_only (cx : EarlyContext) (e : Expr)
    (r : PatIfElseResult)
    (hm : pat_if_else e = some r)
    (hmac : in_macro e.span = false) :
    ( in_macro r.else_.span = true → check_expr cx e = []) ∧
    ( in_macro r.else_.span = false →
      block_starts_with_comment cx r.block_inner = false →
      (check_expr cx e).length = 1) := by
  have h1 := pat1_none_of_pat2_some hm
  constructor
  · intro hq
    simp [check_expr, hmac, hm, h1, hq]
  · intro hq hc
    simp [check_expr, hmac, hm, h1, hq, hc]

/-- C2: `pat_if_without_else` matches an expression if and only if it is an
If with no else branch whose then-block contains exactly one statement —
an expression statement or a semicolon-terminated statement — that is itself
an If with no else branch; the match binds exactly the captures check,
check_inner, content, then, and inner, as related below. -/
theorem pat_if_without_else_characterization (e : Expr) (r : PatIfWithoutElseResult) :
    pat_if_without_else e = some r ↔
      ∃ sp bsp isp,
        r.inner = Expr.If isp r.check_inner r.content none ∧
        (r.then_ = Block.mk bsp [Stmt.Expr r.inner] ∨
         r.then_ = Block.mk bsp [Stmt.Semi r.inner]) ∧
        e = Expr.If sp r.check r.then_ none := by
  constructor
  · exact pat_if_without_else_shape
  · rintro ⟨sp, bsp, isp, hinner, hthen | hthen, he⟩ <;>
    · obtain ⟨c, ci, co, t, i⟩ := r
      dsimp only at hinner hthen he
      subst hinner
      subst hthen
      subst he
      rfl

theorem head_dropWhile_not {α : Type} (p : α → Bool) :
    ∀ (l : List α) (c : α), (l.dropWhile p).head? = some c → p c = false := by
  intro l
  induction l with
  | nil =>
    intro c h
    simp [List.dropWhile] at h
  | cons a t ih =>
    intro c h
    rw [List.dropWhile_cons] at h
    by_cases hpa : p a
    · rw [if_pos hpa] at h
      exact ih c h
    · rw [if_neg hpa] at h
      injection h with h'
      subst h'
      simpa using hpa

theorem dropWhile_append_of_forall {α : Type} (p : α → Bool) :
    ∀ (pre post : List α), (∀ c ∈ pre, p c = true) →
      (∀ c, post.head? = some c → p c = false) →
      (pre ++ post).dropWhile p = post := by
  intro pre
  induction pre with
  | nil =>
    intro post _ hpost
    cases post with
    | nil => rfl
    | cons b bs =>
      have hb : p b = false := hpost b rfl
      simp [List.dropWhile_cons, hb]
  | cons a t ih =>
    intro post hpre hpost
    have hpa : p a = true := hpre a (by simp)
    simp only [List.cons_append, List.dropWhile_cons, hpa, if_true]
    exact ih post (fun c hc => hpre c (by simp [hc])) hpost

/-- The specification's reading of the comment guard: the text decomposes
into a (maximal) prefix of whitespace and opening-brace characters followed
by a remainder that begins with a line-comment or block-comment marker. -/
def region_has_leading_comment (text : List Char) : Prop :=
  ∃ pre post, text = pre ++ post ∧
    (∀ c ∈ pre, isWsOrBrace c = true) ∧
    (∀ c, post.head? = some c → isWsOrBrace c = false) ∧
    (starts_with post "//".data = true ∨ starts_with post "/*".data = true)

/-- C6: the comment guard returns true if and only if the block's source
text, after stripping every leading character that is whitespace or an
opening brace, begins with a line-comment or block-comment marker. -/
theorem comment_guard_characterization (cx : EarlyContext) (blk : Block) :
    block_starts_with_comment cx blk = true ↔
      region_has_leading_comment (snippet_block cx blk.span "..").data := by
  unfold block_starts_with_comment region_has_leading_comment
  generalize (snippet_block cx blk.span "..").data = l
  simp only [Bool.or_eq_true]
  constructor
  · intro h
    refine ⟨l.takeWhile isWsOrBrace, l.dropWhile isWsOrBrace,
      (List.takeWhile_append_dropWhile isWsOrBrace l).symm, ?_, ?_, h⟩
    · intro c hc
      exact List.mem_takeWhile_imp hc
    · intro c hc
      exact head_dropWhile_not isWsOrBrace l c hc
  · rintro ⟨pre, post, heq, hpre, hpost, hmark⟩
    rw [heq, dropWhile_append_of_forall isWsOrBrace pre post hpre hpost]
    exact hmark

/-- C7: if either pattern structurally matches but the comment guard reports
a leading comment in the block to be elided (the outer then-block for
pattern 1, the else block's inner block for pattern 2), `check_expr` emits
no suggestion and no diagnostic for that expression. -/
theorem comment_guard_blocks_all (cx : EarlyContext) (e : Expr)
    (h : (∃ r, pat_if_without_else e = some r ∧
            block_starts_with_comment cx r.then_ = true) ∨
         (∃ r, pat_if_else e = some r ∧
            block_starts_with_comment cx r.block_inner = true)) :
    check_expr cx e = [] := by
  rcases h with ⟨r, hm, hg⟩ | ⟨r, hm, hg⟩
  · have h2 := pat2_none_of_pat1_some hm
    simp [check_expr, hm, h2, hg]
  · have h1 := pat1_none_of_pat2_some hm
    simp [check_expr, hm, h1, hg]

/-- C9: when the snippet accessor cannot recover the text of the inspected
block, the comment guard operates on the default placeholder text, which does
not begin with a comment marker, so the guard reports no comment. -/
theorem missing_snippet_guard_passes (cx : EarlyContext) (blk : Block)
    (h : cx.snippet blk.span = none) :
    block_starts_with_comment cx blk = false := by
  simp only [block_starts_with_comment, snippet_block, h]
  rfl

/-- Witness for C1, on `if x \x7b if y \x7b foo(); \x7d \x7d`. -/
theorem pattern1_suggestion_exact_witness :
    check_expr exCx exE1 =
      [⟨⟨6, 0, false⟩, "this if statement can be collapsed", "try",
        "if x && y \x7b foo(); \x7d", Applicability.MachineApplicable⟩] :=
  pattern1_suggestion_exact exCx exE1 exR1 rfl rfl rfl rfl

/-- Witness for C3, on `if x \x7b ... \x7d else \x7b if y \x7b bar(); \x7d \x7d`. -/
theorem pattern2_suggestion_snippet_witness :
    ∃ s : Suggestion, check_expr exCx exE3 = [s] ∧ s.span = exR3.block.span ∧
      ((∃ t, exCx.snippet exR3.else_.span = some t ∧ s.replacement = t ∧
          s.applicability = Applicability.MachineApplicable) ∨
       (exCx.snippet exR3.else_.span = none ∧ s.replacement = ".." ∧
          s.applicability = Applicability.MaybeIncorrect)) :=
  pattern2_suggestion_snippet exCx exE3 exR3 rfl rfl rfl rfl

/-- Witness for C4: the outer and inner context ids differ, so nothing is
emitted. -/
theorem hygiene_guard_blocks_all_witness :
    exE5.span.ctxt ≠ exR5.inner.span.ctxt ∧ check_expr exCx exE5 = [] :=
  ⟨by decide, hygiene_guard_blocks_all exCx exE5 exR5 rfl (by decide)⟩

/-- Witness for C5: a macro-generated expression yields no diagnostics. -/
theorem macro_expr_no_diagnostics_witness :
    in_macro exE6.span = true ∧ check_expr exCx exE6 = [] :=
  ⟨rfl, macro_expr_no_diagnostics exCx exE6 rfl⟩

/-- Witness for C7: the then-block source text starts with a line comment, so
nothing is emitted. -/
theorem comment_guard_blocks_all_witness :
    block_starts_with_comment exCx exThen2 = true ∧ check_expr exCx exE2 = [] :=
  ⟨rfl, comment_guard_blocks_all exCx exE2 (Or.inl ⟨exR2, rfl, rfl⟩)⟩

/-- Witness for C8: the If-else alternative matches and `pat_if_else` returns
its result. -/
theorem alternation_first_wins_witness :
    pat_if_else_alt1 exE3 = some exR3 ∧ pat_if_else exE3 = some exR3 :=
  ⟨rfl, alternation_first_wins exE3 exR3 rfl⟩

/-- Witness for C9: with no recoverable snippet, the guard reports no
comment. -/
theorem missing_snippet_guard_passes_witness :
    block_starts_with_comment exCxNone exThen = false :=
  missing_snippet_guard_passes exCxNone exThen rfl

/-- Witness for C10: a suggestion is emitted although the outer if and the
nested conditional carry different context ids. -/
theorem pattern2_macro_guard_only_witness :
    exE4.span.ctxt ≠ exR4.else_.span.ctxt ∧ (check_expr exCx exE4).length = 1 :=
  ⟨by decide, (pattern2_macro_guard_only exCx exE4 exR4 rfl rfl).2 rfl rfl⟩
